import Mathlib

/-!
Verification of the procedural animation engine of the AnimeWaifu repository.

The embedding below follows the TypeScript source:
  - the per-frame animation body of the Avatar component (lip sync, blink
    scheduler, emotion blender, pose director);
  - the audio level extractor of the ElevenLabs TTS service;
  - the emotion tag parser of the Gemini service.
Real-number quantities are modelled as rationals; the ambient sine function
and the random source are passed in explicitly so every tick is a pure
function of its inputs.
-/

namespace AnimeWaifu

/-- clamp01 x mirrors the source idiom Math.max(0, Math.min(1, x)). -/
def clamp01 (x : ℚ) : ℚ := max 0 (min 1 x)

/-! ## Emotion tags (geminiService.ts, type EmotionTag) -/

/-- EmotionTag: the closed set of 13 emotion labels of geminiService.ts. -/
inductive EmotionTag where
  | happy | angry | sad | surprised | embarrassed | loving | worried
  | annoyed | excited | neutral | shy | proud | confused
  deriving DecidableEq

/-! ## Lip sync (Avatar useFrame body, lipSyncRef section) -/

/-- LipSyncState: the mutable ref { value, smoothedLevel } of the Avatar. -/
structure LipSyncState where
  value : ℚ
  smoothedLevel : ℚ
  deriving DecidableEq

/-- lipSyncStep embeds the LIP SYNC section of the Avatar frame callback.
The ambient sine and the Math.random draw of this tick are explicit
arguments; time is the elapsed clock time at this tick. -/
def lipSyncStep (sine : ℚ → ℚ) (rand : ℚ) (time : ℚ)
    (isSpeaking : Bool) (audioLevel : ℚ) (st : LipSyncState) : LipSyncState :=
  if isSpeaking ∧ audioLevel > 0 then
    let smoothed := st.smoothedLevel * 0.4 + audioLevel * 0.6
    let variation := sine (time * 15) * 0.1
    { value := clamp01 (smoothed + variation), smoothedLevel := smoothed }
  else if isSpeaking then
    let wave1 := sine (time * 12) * 0.3
    let wave2 := sine (time * 18) * 0.2
    let wave3 := sine (time * 25) * 0.15
    let randomVariation := rand * 0.1
    { value := clamp01 (0.3 + wave1 + wave2 + wave3 + randomVariation),
      smoothedLevel := st.smoothedLevel }
  else
    { value := st.value * 0.85, smoothedLevel := 0 }

/-- LipInput: the per-tick inputs consumed by the lip sync section. -/
structure LipInput where
  sine : ℚ → ℚ
  rand : ℚ
  time : ℚ
  isSpeaking : Bool
  audioLevel : ℚ

/-- lipSyncRun folds lipSyncStep over a sequence of ticks. -/
def lipSyncRun (st : LipSyncState) (ins : List LipInput) : LipSyncState :=
  ins.foldl (fun s i => lipSyncStep i.sine i.rand i.time i.isSpeaking i.audioLevel s) st

/-- mouthOpenValue = Math.max(0, Math.min(1, lipSync.value)). -/
def mouthOpenValue (v : ℚ) : ℚ := clamp01 v

/-- primaryOpen: the value given to the Aa viseme, mouthOpenValue * 0.9. -/
def primaryOpen (v : ℚ) : ℚ := mouthOpenValue v * 0.9

/-- roundedOpen: the value given to the Oh viseme, mouthOpenValue * 0.4. -/
def roundedOpen (v : ℚ) : ℚ := mouthOpenValue v * 0.4

/-! ## Audio level extractor (elevenLabsService.ts, startAudioAnalysis) -/

/-- rawLevel embeds the per-frame normalized level computation of analyze():
sum the frequency bins from index 2 up to (exclusive) min(20, length),
average, then clamp((average - 30) / 150, 0, 1). -/
def rawLevel (frame : List ℕ) : ℚ :=
  let rangeEnd := min 20 frame.length
  let sum : ℚ := ((List.range' 2 (rangeEnd - 2)).map (fun i => (frame.getD i 0 : ℚ))).sum
  let average := sum / ((rangeEnd : ℚ) - 2)
  clamp01 ((average - 30) / 150)

/-- analysisStep: one analyze() callback. When the analyser or data array is
absent or playback has stopped, the level is forced to 0; otherwise the
exponential moving average level*0.3 + raw*0.7 is applied. -/
def analysisStep (level : ℚ) (input : Option (List ℕ)) : ℚ :=
  match input with
  | none => 0
  | some frame => level * 0.3 + rawLevel frame * 0.7

/-- runLevel: the published audio level after a sequence of analysis ticks,
starting from the initial currentAudioLevel = 0. -/
def runLevel (inputs : List (Option (List ℕ))) : ℚ :=
  inputs.foldl analysisStep 0

/-- Modelled from the spec wording of claim C3: the raw level computed from
the mean of the 19 bins at indices 2 through 20 inclusive. -/
def rawLevelSpec19 (frame : List ℕ) : ℚ :=
  let sum : ℚ := ((List.range' 2 19).map (fun i => (frame.getD i 0 : ℚ))).sum
  clamp01 ((sum / 19 - 30) / 150)

/-- Modelled from the amended spec wording: the raw level computed from the
mean of the 18 bins at indices 2 through 19 inclusive. -/
def rawLevelSpec18 (frame : List ℕ) : ℚ :=
  let sum : ℚ := ((List.range' 2 18).map (fun i => (frame.getD i 0 : ℚ))).sum
  clamp01 ((sum / 18 - 30) / 150)

/-! ## Blink scheduler (Avatar useFrame body, blinkRef section) -/

/-- BlinkState: the mutable ref { timer, isBlinking } of the Avatar. -/
structure BlinkState where
  timer : ℚ
  isBlinking : Bool
  deriving DecidableEq

/-- blinkInit: blinkRef starts as { timer: 0, isBlinking: false }. -/
def blinkInit : BlinkState := { timer := 0, isBlinking := false }

/-- blinkStep embeds the BLINKING section of the frame callback. The single
Math.random draw this tick may make (at blink onset or at blink completion,
never both in one tick because the onset timer 2 + rand*4 is positive) is
the argument rand, a value in [0,1); the eyelid weight written each tick is
derived from the state and is not itself state. -/
def blinkStep (delta rand : ℚ) (b : BlinkState) : BlinkState :=
  let t1 := b.timer - delta
  if t1 ≤ 0 ∧ ¬b.isBlinking then
    -- onset branch: timer := 2 + random*4, isBlinking := true, then the
    -- blinking block runs with blinkProgress = 1 - timer/0.15 < 1
    { timer := 2 + rand * 4, isBlinking := true }
  else if b.isBlinking then
    -- blinkProgress = 1 - (timer / 0.15); completion iff progress >= 1
    if 1 - t1 / 0.15 ≥ 1 then
      { timer := 2 + rand * 4, isBlinking := false }
    else
      { timer := t1, isBlinking := true }
  else
    { timer := t1, isBlinking := false }

/-- blinkRun iterates blinkStep n times with a fixed delta and a fixed
random draw. -/
def blinkRun (delta rand : ℚ) : ℕ → BlinkState → BlinkState
  | 0, b => b
  | n + 1, b => blinkRun delta rand n (blinkStep delta rand b)

/-! ## Emotion blender (Avatar useFrame body, emotionRef section) -/

/-- VRMExpr: the VRM expression preset channels the Avatar writes to. -/
inductive VRMExpr where
  | aa | oh | blinkCh | happy | angry | sad | surprised | relaxed | neutralCh
  deriving DecidableEq

/-- emotionToVRMExpression: the lookup table of the Avatar component. The
entries for embarrassed and shy are null; every other entry, including
neutral, is a truthy VRM preset name. -/
def emotionToVRMExpression : EmotionTag → Option VRMExpr
  | .happy => some .happy
  | .angry => some .angry
  | .sad => some .sad
  | .surprised => some .surprised
  | .embarrassed => none
  | .loving => some .relaxed
  | .worried => some .sad
  | .annoyed => some .angry
  | .excited => some .happy
  | .neutral => some .neutralCh
  | .shy => none
  | .proud => some .happy
  | .confused => some .surprised

/-- EmotionState: the mutable ref { current, blendValue } of the Avatar. -/
structure EmotionState where
  current : EmotionTag
  blendValue : ℚ
  deriving DecidableEq

/-- isResetChannel marks the five entries of the expressionsToReset list:
Happy, Angry, Sad, Surprised, Relaxed. -/
def isResetChannel : VRMExpr → Bool
  | .happy | .angry | .sad | .surprised | .relaxed => true
  | _ => false

/-- emotionSection embeds the EMOTION EXPRESSIONS section of the frame
callback: detect a label change (resetting blendValue to 0), advance
blendValue by delta*3 clamped to 1, decay every reset channel currently
above 0 by delta*3 floored at 0, then write the target channel (when the
table entry is truthy) to blendValue*0.7, or Happy to blendValue*0.3 for
embarrassed and shy. -/
def emotionSection (delta : ℚ) (currentEmotion : EmotionTag)
    (st : EmotionState) (expr : VRMExpr → ℚ) :
    EmotionState × (VRMExpr → ℚ) :=
  let blend0 := if st.current ≠ currentEmotion then 0 else st.blendValue
  let blend := min 1 (blend0 + delta * 3)
  let decayed : VRMExpr → ℚ := fun e =>
    if isResetChannel e ∧ expr e > 0 then max 0 (expr e - delta * 3) else expr e
  let written : VRMExpr → ℚ :=
    match emotionToVRMExpression currentEmotion with
    | some target => Function.update decayed target (blend * 0.7)
    | none =>
      if currentEmotion = .embarrassed ∨ currentEmotion = .shy then
        Function.update decayed .happy (blend * 0.3)
      else decayed
  ({ current := currentEmotion, blendValue := blend }, written)

/-- emotionTicks iterates emotionSection n times with fixed delta and label. -/
def emotionTicks (delta : ℚ) (currentEmotion : EmotionTag) :
    ℕ → EmotionState × (VRMExpr → ℚ) → EmotionState × (VRMExpr → ℚ)
  | 0, p => p
  | n + 1, p => emotionTicks delta currentEmotion n (emotionSection delta currentEmotion p.1 p.2)

/-! ## Pose director (Avatar useFrame body, poseAnimRef section) -/

/-- speakingPoses: the speaking-biased candidate index list [1, 2, 4]. -/
def speakingPoses : List ℕ := [1, 2, 4]

/-- idlePoses: the weighted idle candidate index list [0, 0, 4, 4, 1]. -/
def idlePoses : List ℕ := [0, 0, 4, 4, 1]

/-- posesLength: the pose catalog has 5 entries. -/
def posesLength : ℕ := 5

/-- rawPoseChoice: the candidate index picked by speaking state and emotion
before the no-repeat rule. Array draws are modelled by indexing with r mod
the list length, which ranges over every possible Math.floor(random*len). -/
def rawPoseChoice (isSpeaking : Bool) (emotion : EmotionTag) (r : ℕ) : ℕ :=
  if isSpeaking then
    speakingPoses.getD (r % speakingPoses.length) 0
  else if emotion = .shy ∨ emotion = .embarrassed then 3
  else if emotion = .angry ∨ emotion = .annoyed ∨ emotion = .proud then 1
  else if emotion = .excited ∨ emotion = .happy then 2
  else idlePoses.getD (r % idlePoses.length) 0

/-- choosePoseIndex embeds the pose decision body: pick the candidate index,
then apply the no-repeat rule: an index equal to the current one advances by
one modulo the catalog length. -/
def choosePoseIndex (isSpeaking : Bool) (emotion : EmotionTag)
    (current : ℕ) (r : ℕ) : ℕ :=
  let newIdx := rawPoseChoice isSpeaking emotion r
  if newIdx = current then (newIdx + 1) % posesLength else newIdx

/-- PoseAnimState: the index and timer fields of poseAnimRef. -/
structure PoseAnimState where
  currentPoseIndex : ℕ
  targetPoseIndex : ℕ
  blendFactor : ℚ
  poseTimer : ℚ
  deriving DecidableEq

/-- poseDecisionStep embeds the decision part of the FULL BODY POSE section:
advance poseTimer by delta; past the interval (2.5 when speaking, 5
otherwise) reset the timer, promote the target index to current, choose a
new target with choosePoseIndex, and reset blendFactor to 0. -/
def poseDecisionStep (delta : ℚ) (isSpeaking : Bool) (emotion : EmotionTag)
    (r : ℕ) (st : PoseAnimState) : PoseAnimState :=
  let timer := st.poseTimer + delta
  let poseChangeInterval : ℚ := if isSpeaking then 2.5 else 5
  if timer > poseChangeInterval then
    let cur := st.targetPoseIndex
    { currentPoseIndex := cur,
      targetPoseIndex := choosePoseIndex isSpeaking emotion cur r,
      blendFactor := 0,
      poseTimer := 0 }
  else
    { st with poseTimer := timer }

/-! ## Emotion tag parser (geminiService.ts, parseEmotionFromResponse) -/

/-- isWordChar: the JavaScript regex word class [A-Za-z0-9_]. -/
def isWordChar (c : Char) : Bool := c.isAlpha || c.isDigit || c == '_'

/-- scanWord consumes word characters after the opening bracket; it succeeds
on the closing bracket when at least one word character was read, mirroring
the regex fragment (\w+)]. -/
def scanWord : List Char → List Char → Option (List Char × List Char)
  | [], _ => none
  | c :: rest, acc =>
    if c == ']' then
      if acc.isEmpty then none else some (acc.reverse, rest)
    else if isWordChar c then scanWord rest (c :: acc)
    else none

/-- matchLeadingTag: the anchored match of the regex pattern that extracts a
leading bracketed word tag, returning the tag characters and the remainder
of the input. -/
def matchLeadingTag : List Char → Option (List Char × List Char)
  | '[' :: rest => scanWord rest []
  | _ => none

/-- trimChars mirrors String.prototype.trim on a character list. -/
def trimChars (cs : List Char) : List Char :=
  ((cs.dropWhile Char.isWhitespace).reverse.dropWhile Char.isWhitespace).reverse

/-- WaifuResponse: { emotion, text, rawResponse } of geminiService.ts; the
emotion field is modelled as the string the source produces, since the
source casts without validating against the EmotionTag union. -/
structure WaifuResponse where
  emotion : String
  text : String
  rawResponse : String
  deriving DecidableEq

/-- parseEmotionFromResponse embeds the parser: when a leading bracketed tag
matches, return the lowercased tag word and the remainder with the tag and
following whitespace removed and trimmed; otherwise default the emotion to
neutral and trim the whole response. -/
def parseEmotionFromResponse (response : String) : WaifuResponse :=
  match matchLeadingTag response.data with
  | some (tag, rest) =>
    { emotion := String.mk (tag.map Char.toLower),
      text := String.mk (trimChars (rest.dropWhile Char.isWhitespace)),
      rawResponse := response }
  | none =>
    { emotion := "neutral",
      text := String.mk (trimChars response.data),
      rawResponse := response }

/-- emotionTagStrings: the 13 recognized EmotionTag literals. -/
def emotionTagStrings : List String :=
  ["happy", "angry", "sad", "surprised", "embarrassed", "loving", "worried",
   "annoyed", "excited", "neutral", "shy", "proud", "confused"]

/-! ## Helper lemmas -/

lemma clamp01_nonneg (x : ℚ) : 0 ≤ clamp01 x := le_max_left 0 _

lemma clamp01_le_one (x : ℚ) : clamp01 x ≤ 1 :=
  max_le (by norm_num) (min_le_left 1 x)

lemma clamp01_eq_self {x : ℚ} (h0 : 0 ≤ x) (h1 : x ≤ 1) : clamp01 x = x := by
  unfold clamp01
  rw [min_eq_right h1, max_eq_right h0]

/-- With isSpeaking = false, one lip sync tick multiplies the open value by
0.85 and zeroes the smoothed level, for any ambient inputs. -/
lemma lipSyncStep_not_speaking (sine : ℚ → ℚ) (rand time audioLevel : ℚ)
    (st : LipSyncState) :
    lipSyncStep sine rand time false audioLevel st
      = { value := st.value * 0.85, smoothedLevel := 0 } := by
  simp [lipSyncStep]

/-- A run of not-speaking ticks scales the open value by 0.85 per tick. -/
lemma lipSyncRun_not_speaking (ins : List LipInput) :
    ∀ st : LipSyncState, (∀ i ∈ ins, i.isSpeaking = false) →
    (lipSyncRun st ins).value = st.value * (0.85 : ℚ) ^ ins.length := by
  induction ins with
  | nil => intro st _; simp [lipSyncRun]
  | cons i rest ih =>
    intro st h
    have hi : i.isSpeaking = false := h i (List.mem_cons_self i rest)
    have hrest : ∀ j ∈ rest, j.isSpeaking = false :=
      fun j hj => h j (List.mem_cons_of_mem i hj)
    have hcons : lipSyncRun st (i :: rest)
        = lipSyncRun (lipSyncStep i.sine i.rand i.time i.isSpeaking i.audioLevel st) rest := by
      simp [lipSyncRun]
    rw [hcons, hi, lipSyncStep_not_speaking, ih _ hrest]
    simp [List.length_cons, pow_succ]
    ring

/-! ## Claim theorems -/

/-- C1: the claim states that a started blink completes within 0.15 seconds
of accumulated dt. The code sets the timer at blink onset to the 2 to 6
second idle interval instead of the 0.15 second blink duration, so the blink
runs for that whole interval: from the initial state with dt = 1/30 and
random draw 0, the blink starts on tick 1, is still in progress on tick 6
(1/6 ≥ 0.15 seconds after onset, timer 11/6) and on tick 60; it completes
only on tick 61, two full seconds after onset. -/
theorem C1_blink_duration_bug :
    (blinkRun (1/30) 0 1 blinkInit).isBlinking = true ∧
    (0.15 : ℚ) ≤ 5 * (1/30) ∧
    (blinkRun (1/30) 0 6 blinkInit).isBlinking = true ∧
    (blinkRun (1/30) 0 6 blinkInit).timer = 11/6 ∧
    (blinkRun (1/30) 0 60 blinkInit).isBlinking = true ∧
    (blinkRun (1/30) 0 61 blinkInit).isBlinking = false := by
  set_option maxRecDepth 4000 in
  norm_num [blinkRun, blinkStep, blinkInit]

/-- C2 counterexample: from a fully open mouth (open value 1), five
consecutive not-speaking silent ticks only reach primaryOpen
= 0.85^5 * 0.9 = 0.39933478125, far above the claimed bound 0.01. -/
theorem C2_counterexample :
    primaryOpen (lipSyncRun ⟨1, 0⟩
        (List.replicate 5 ⟨fun _ => 0, 0, 0, false, 0⟩)).value
      = 12778713/32000000 ∧
    ¬ primaryOpen (lipSyncRun ⟨1, 0⟩
        (List.replicate 5 ⟨fun _ => 0, 0, 0, false, 0⟩)).value < 1/100 := by
  norm_num [lipSyncRun, lipSyncStep, primaryOpen, mouthOpenValue, clamp01,
    List.replicate]

/-- C2 amended: feeding isSpeaking=false and loudness=0 for at least 28
consecutive ticks (not 5) drives primaryOpen below 0.01 from any starting
open value in [0,1]; the not-speaking path multiplies the previous open
value by 0.85 each tick and primaryOpen is open*0.9. -/
theorem C2_amended_decay (st : LipSyncState) (ins : List LipInput)
    (h0 : 0 ≤ st.value) (h1 : st.value ≤ 1)
    (hns : ∀ i ∈ ins, i.isSpeaking = false) (hlen : 28 ≤ ins.length) :
    primaryOpen (lipSyncRun st ins).value < 1/100 := by
  rw [lipSyncRun_not_speaking ins st hns]
  have hpow0 : (0 : ℚ) ≤ (0.85 : ℚ) ^ ins.length := pow_nonneg (by norm_num) _
  have hpow : (0.85 : ℚ) ^ ins.length ≤ (0.85 : ℚ) ^ 28 :=
    pow_le_pow_of_le_one (by norm_num) (by norm_num) hlen
  have hv0 : 0 ≤ st.value * (0.85 : ℚ) ^ ins.length := mul_nonneg h0 hpow0
  have hv28 : st.value * (0.85 : ℚ) ^ ins.length ≤ (0.85 : ℚ) ^ 28 := by
    calc st.value * (0.85 : ℚ) ^ ins.length
        ≤ 1 * (0.85 : ℚ) ^ ins.length := mul_le_mul_of_nonneg_right h1 hpow0
      _ = (0.85 : ℚ) ^ ins.length := one_mul _
      _ ≤ (0.85 : ℚ) ^ 28 := hpow
  have hv1 : st.value * (0.85 : ℚ) ^ ins.length ≤ 1 :=
    le_trans hv28 (by norm_num)
  unfold primaryOpen mouthOpenValue
  rw [clamp01_eq_self hv0 hv1]
  have hbound : (0.85 : ℚ) ^ 28 * 0.9 < 1/100 := by norm_num
  nlinarith [hv28, hv0]

/-- C2 witness: the amended bound at the concrete run of 28 silent ticks
from the fully open mouth. -/
theorem C2_witness :
    primaryOpen (lipSyncRun ⟨1, 0⟩
        (List.replicate 28 ⟨fun _ => 0, 0, 0, false, 0⟩)).value < 1/100 :=
  C2_amended_decay ⟨1, 0⟩ _ (by norm_num) (by norm_num)
    (by intro i hi; simp [List.eq_of_mem_replicate hi]) (by simp)

/-- C3 counterexample: the analysis loop runs for indices 2 up to
exclusive 20, so bin 20 is not read. On a frame whose bins 0 to 19 hold 100
and whose bin 20 holds 255, the code computes raw level (100-30)/150 = 7/15,
while the claimed 19-bin mean over indices 2 through 20 inclusive gives
99/190. -/
theorem C3_counterexample :
    rawLevel (List.replicate 20 100 ++ [255]) = 7/15 ∧
    rawLevelSpec19 (List.replicate 20 100 ++ [255]) = 99/190 ∧
    rawLevel (List.replicate 20 100 ++ [255])
      ≠ rawLevelSpec19 (List.replicate 20 100 ++ [255]) := by
  refine ⟨?_, ?_, ?_⟩ <;>
    norm_num [rawLevel, rawLevelSpec19, clamp01, List.range', List.replicate,
      List.getD]

/-- C3 amended: on every frame with at least 20 bins, the raw normalized
level equals clamp((m - 30) / 150, 0, 1) where m is the arithmetic mean of
the bins at indices 2 through 19 inclusive (18 bins, not 19), and the
published level is then updated by the exponential moving average
level*0.3 + raw*0.7. -/
theorem C3_amended_extractor (frame : List ℕ) (level : ℚ)
    (h : 20 ≤ frame.length) :
    rawLevel frame = rawLevelSpec18 frame ∧
    analysisStep level (some frame) = level * 0.3 + rawLevel frame * 0.7 := by
  constructor
  · unfold rawLevel rawLevelSpec18
    rw [Nat.min_eq_left h]
    norm_num
  · rfl

/-- C3 witness: the amended statement at a concrete 21-bin frame. -/
theorem C3_witness :
    rawLevel (List.replicate 20 100 ++ [255])
        = rawLevelSpec18 (List.replicate 20 100 ++ [255]) ∧
    analysisStep (1/2) (some (List.replicate 20 100 ++ [255]))
        = (1/2) * 0.3 + rawLevel (List.replicate 20 100 ++ [255]) * 0.7 :=
  C3_amended_extractor (List.replicate 20 100 ++ [255]) (1/2) (by simp)

/-- C4 counterexample: a reply starting with the unrecognized tag
[flabbergasted] parses to the emotion string "flabbergasted", which is not
one of the 13 recognized labels and is not "neutral": the parser lowercases
and returns whatever word is in the brackets without validating it. -/
theorem C4_counterexample :
    (parseEmotionFromResponse "[flabbergasted] Oh my!").emotion
        = "flabbergasted" ∧
    "flabbergasted" ∉ emotionTagStrings ∧
    (parseEmotionFromResponse "[flabbergasted] Oh my!").emotion
        ≠ "neutral" := by
  refine ⟨by decide, by decide, by decide⟩

/-- C4 amended: the parser returns "neutral" exactly when no leading
bracketed word tag is present; when such a tag is present, recognized or
not, it returns the lowercased tag word itself, and it never errors (it is a
total function). -/
theorem C4_amended_tagword (s : String) :
    (matchLeadingTag s.data = none →
      (parseEmotionFromResponse s).emotion = "neutral") ∧
    (∀ tag rest, matchLeadingTag s.data = some (tag, rest) →
      (parseEmotionFromResponse s).emotion
        = String.mk (tag.map Char.toLower)) := by
  constructor
  · intro h
    simp [parseEmotionFromResponse, h]
  · intro tag rest h
    simp [parseEmotionFromResponse, h]

/-- C4 witness: the amended statement at a tagless reply and at a reply with
an unrecognized tag. -/
theorem C4_witness :
    (parseEmotionFromResponse "hello").emotion = "neutral" ∧
    (parseEmotionFromResponse "[flabbergasted] Oh my!").emotion
      = String.mk ("flabbergasted".data.map Char.toLower) :=
  ⟨(C4_amended_tagword "hello").1 (by decide),
   (C4_amended_tagword "[flabbergasted] Oh my!").2
     "flabbergasted".data " Oh my!".data (by decide)⟩

/-- C5 counterexample: with the requested label neutral, the blender does
set a channel to a positive target weight: the lookup table maps neutral to
the truthy Neutral preset, so one tick of dt = 1/60 from a fresh state
writes weight (1/60)*3*0.7 = 7/200 > 0 to the neutral channel, a channel
outside the claimed emitted set. -/
theorem C5_counterexample :
    (emotionSection (1/60) .neutral ⟨.neutral, 0⟩ (fun _ => 0)).2 .neutralCh
        = 7/200 ∧
    0 < (emotionSection (1/60) .neutral ⟨.neutral, 0⟩ (fun _ => 0)).2
        .neutralCh := by
  norm_num [emotionSection, emotionToVRMExpression, Function.update]

/-- C5 amended: when the requested emotion label is neutral, every standard
expression channel (happy, angry, sad, surprised, relaxed) only decays
toward 0 and none of them receives a positive target; the blender does
however write the separate neutral preset channel to blendProgress*0.7. -/
theorem C5_amended_neutral (delta : ℚ) (st : EmotionState)
    (expr : VRMExpr → ℚ) (c : VRMExpr)
    (hd : 0 ≤ delta) (hc : isResetChannel c = true) :
    (emotionSection delta .neutral st expr).2 c ≤ expr c ∧
    (emotionSection delta .neutral st expr).2 .neutralCh
      = min 1 ((if st.current = .neutral then st.blendValue else 0) + delta * 3)
          * 0.7 := by
  constructor
  · have hne : c ≠ VRMExpr.neutralCh := by
      intro h
      subst h
      simp [isResetChannel] at hc
    simp only [emotionSection, emotionToVRMExpression]
    rw [Function.update_noteq hne]
    split
    · next hcond =>
      apply max_le
      · linarith [hcond.2]
      · linarith
    · exact le_refl _
  · simp only [emotionSection, emotionToVRMExpression]
    rw [Function.update_same]
    by_cases h : st.current = EmotionTag.neutral
    · simp [h]
    · simp [h]

/-- C5 witness: the amended statement at one concrete neutral tick. -/
theorem C5_witness :
    (emotionSection (1/60) .neutral ⟨.neutral, 1/2⟩ (fun _ => 1/4)).2 .happy
        ≤ 1/4 ∧
    (emotionSection (1/60) .neutral ⟨.neutral, 1/2⟩ (fun _ => 1/4)).2 .neutralCh
        = min 1 (1/2 + (1/60) * 3) * 0.7 := by
  have h := C5_amended_neutral (1/60) ⟨.neutral, 1/2⟩ (fun _ => 1/4) .happy
    (by norm_num) rfl
  simpa using h

/-- rawPoseChoice always lands inside the 5-entry catalog. -/
lemma rawPoseChoice_lt_five (sp : Bool) (emo : EmotionTag) (r : ℕ) :
    rawPoseChoice sp emo r < 5 := by
  unfold rawPoseChoice
  have h3 : r % 3 = 0 ∨ r % 3 = 1 ∨ r % 3 = 2 := by omega
  have h5 : r % 5 = 0 ∨ r % 5 = 1 ∨ r % 5 = 2 ∨ r % 5 = 3 ∨ r % 5 = 4 := by
    omega
  split
  · rcases h3 with h|h|h <;> simp [speakingPoses, h]
  · split
    · norm_num
    · split
      · norm_num
      · split
        · norm_num
        · rcases h5 with h|h|h|h|h <;> simp [idlePoses, h]

/-- choosePoseIndex never returns its current argument. -/
lemma choosePoseIndex_ne (sp : Bool) (emo : EmotionTag) (c r : ℕ) :
    choosePoseIndex sp emo c r ≠ c := by
  simp only [choosePoseIndex]
  have hlt := rawPoseChoice_lt_five sp emo r
  by_cases heq : rawPoseChoice sp emo r = c
  · rw [if_pos heq, ← heq]
    set m := rawPoseChoice sp emo r with hm
    unfold posesLength
    interval_cases m <;> decide
  · rw [if_neg heq]
    exact heq

/-- C6: whenever a pose decision fires (the accumulated timer exceeds the
2.5 or 5 second interval), the previous target index becomes the current
index and the newly chosen target index differs from it, for every random
draw, speaking state and emotion: a raw choice equal to the current index is
advanced by one modulo the 5-entry catalog. -/
theorem C6_no_repeat (delta : ℚ) (isSpeaking : Bool) (emotion : EmotionTag)
    (r : ℕ) (st : PoseAnimState)
    (hfire : st.poseTimer + delta > (if isSpeaking then (2.5 : ℚ) else 5)) :
    (poseDecisionStep delta isSpeaking emotion r st).currentPoseIndex
        = st.targetPoseIndex ∧
    (poseDecisionStep delta isSpeaking emotion r st).targetPoseIndex
        ≠ (poseDecisionStep delta isSpeaking emotion r st).currentPoseIndex := by
  simp only [poseDecisionStep]
  rw [if_pos hfire]
  exact ⟨rfl, choosePoseIndex_ne isSpeaking emotion st.targetPoseIndex r⟩

/-- C6 witness: one fired decision at a concrete state and draw. -/
theorem C6_witness :
    (poseDecisionStep 1 false .neutral 0
        ⟨2, 0, 1, 5⟩).currentPoseIndex = 0 ∧
    (poseDecisionStep 1 false .neutral 0
        ⟨2, 0, 1, 5⟩).targetPoseIndex
      ≠ (poseDecisionStep 1 false .neutral 0
        ⟨2, 0, 1, 5⟩).currentPoseIndex := by
  have h := C6_no_repeat 1 false .neutral 0 ⟨2, 0, 1, 5⟩ (by norm_num)
  simpa using h

/-- C7: blendProgress is monotonically non-decreasing on ticks where the
supplied label equals the stored label (advancing by dt*3 clamped to 1), and
on ticks where the supplied label differs it is reset to 0 before advancing,
so it restarts at min 1 (0 + dt*3). -/
theorem C7_blend_monotone_reset (delta : ℚ) (cur : EmotionTag)
    (st : EmotionState) (expr : VRMExpr → ℚ)
    (hd : 0 ≤ delta) (hb : st.blendValue ≤ 1) :
    (cur = st.current →
      (emotionSection delta cur st expr).1.blendValue
          = min 1 (st.blendValue + delta * 3) ∧
      st.blendValue ≤ (emotionSection delta cur st expr).1.blendValue) ∧
    (cur ≠ st.current →
      (emotionSection delta cur st expr).1.blendValue
          = min 1 (0 + delta * 3)) := by
  constructor
  · intro h
    constructor
    · simp [emotionSection, h.symm]
    · have hle : st.blendValue ≤ min 1 (st.blendValue + delta * 3) :=
        le_min hb (by linarith)
      simpa [emotionSection, h.symm] using hle
  · intro h
    simp [emotionSection, Ne.symm h]

/-- C7 witness: a label-change tick resets and restarts the progress. -/
theorem C7_witness :
    (emotionSection (1/60) .angry ⟨.neutral, 1/2⟩ (fun _ => 0)).1.blendValue
      = min 1 (0 + (1/60) * 3) :=
  (C7_blend_monotone_reset (1/60) .angry ⟨.neutral, 1/2⟩ (fun _ => 0)
    (by norm_num) (by norm_num)).2 (by decide)

/-- Iterating the emotion section one more tick equals applying the section
to the result of the previous ticks. -/
lemma emotionTicks_succ_right (delta : ℚ) (cur : EmotionTag) (n : ℕ)
    (p : EmotionState × (VRMExpr → ℚ)) :
    emotionTicks delta cur (n + 1) p
      = emotionSection delta cur (emotionTicks delta cur n p).1
          (emotionTicks delta cur n p).2 := by
  induction n generalizing p with
  | zero => rfl
  | succ n ih =>
    show emotionTicks delta cur (n + 1) (emotionSection delta cur p.1 p.2) = _
    rw [ih]
    rfl

/-- After k ≥ 1 ticks of label angry at dt = 1/60 from a stored neutral
label, the blend state is angry with progress min 1 (k/20). -/
lemma emotionTicks_angry_state (b0 : ℚ) (e0 : VRMExpr → ℚ) :
    ∀ k : ℕ, 1 ≤ k →
      (emotionTicks (1/60) .angry k (⟨.neutral, b0⟩, e0)).1
        = ⟨.angry, min 1 ((k : ℚ) / 20)⟩ := by
  intro k
  induction k with
  | zero => intro h; omega
  | succ k ih =>
    intro _
    rcases Nat.eq_zero_or_pos k with hk | hk
    · subst hk
      show (emotionSection (1/60) .angry ⟨.neutral, b0⟩ e0).1 = _
      simp [emotionSection]
      norm_num
    · rw [emotionTicks_succ_right, ih hk]
      simp only [emotionSection]
      rw [if_neg (show ¬ (EmotionTag.angry ≠ EmotionTag.angry) from by decide)]
      push_cast
      rcases le_total (1 : ℚ) ((k : ℚ)/20) with h | h
      · rw [min_eq_left h]
        rw [min_eq_left (by linarith : (1 : ℚ) ≤ 1 + 1/60 * 3)]
        rw [min_eq_left (by linarith : (1 : ℚ) ≤ ((k : ℚ) + 1)/20)]
      · rw [min_eq_right h]
        have harith : (k : ℚ)/20 + 1/60 * 3 = ((k : ℚ) + 1)/20 := by ring
        rw [harith]

/-- With current label angry, the tick writes blendValue*0.7 to the angry
channel. -/
lemma emotionSection_angry_write (delta : ℚ) (st : EmotionState)
    (e : VRMExpr → ℚ) :
    (emotionSection delta .angry st e).2 .angry
      = (emotionSection delta .angry st e).1.blendValue * 0.7 := by
  simp [emotionSection, emotionToVRMExpression, Function.update_same]

/-- C8: starting from a stored neutral label with any blend progress and any
expression values, ticking with label angry at dt = 1/60 and rate 3/sec
makes the angry channel weight exactly 0.7 after 20 ticks (t = 1/3 s) and on
every subsequent tick while the label stays angry. -/
theorem C8_angry_weight (b0 : ℚ) (e0 : VRMExpr → ℚ) (n : ℕ) (hn : 20 ≤ n) :
    (emotionTicks (1/60) .angry n (⟨.neutral, b0⟩, e0)).2 .angry = 7/10 := by
  obtain ⟨k, rfl⟩ : ∃ k, n = k + 1 := ⟨n - 1, by omega⟩
  rw [emotionTicks_succ_right, emotionSection_angry_write,
    ← emotionTicks_succ_right,
    emotionTicks_angry_state b0 e0 (k + 1) (by omega)]
  have h1 : (1 : ℚ) ≤ ((k : ℚ) + 1)/20 := by
    have h20 : (20 : ℚ) ≤ (k : ℚ) + 1 := by exact_mod_cast hn
    linarith
  show min 1 ((((k : ℕ) + 1 : ℕ) : ℚ)/20) * 0.7 = 7/10
  push_cast
  rw [min_eq_left h1]
  norm_num

/-- C8 witness: the weight is exactly 0.7 at tick 20 from a fresh state. -/
theorem C8_witness :
    (emotionTicks (1/60) .angry 20 (⟨.neutral, 0⟩, fun _ => 0)).2 .angry
      = 7/10 :=
  C8_angry_weight 0 (fun _ => 0) 20 (by norm_num)

/-- One analysis tick keeps the published level inside [0,1]. -/
lemma runLevel_aux (inputs : List (Option (List ℕ))) :
    ∀ level : ℚ, 0 ≤ level → level ≤ 1 →
      0 ≤ List.foldl analysisStep level inputs ∧
      List.foldl analysisStep level inputs ≤ 1 := by
  induction inputs with
  | nil =>
    intro level h0 h1
    simpa using ⟨h0, h1⟩
  | cons i rest ih =>
    intro level h0 h1
    rw [List.foldl_cons]
    cases i with
    | none =>
      apply ih
      · simp [analysisStep]
      · simp [analysisStep]
    | some f =>
      have hr0 : 0 ≤ rawLevel f := by unfold rawLevel; exact clamp01_nonneg _
      have hr1 : rawLevel f ≤ 1 := by unfold rawLevel; exact clamp01_le_one _
      apply ih
      · simp only [analysisStep]
        nlinarith
      · simp only [analysisStep]
        nlinarith

/-- C9: the published loudness starts at 0 and stays in [0,1] across every
sequence of analysis ticks on frames with more than 2 bins (it is forced to
0 when no source is active and is otherwise a convex combination of the
previous level and a clamped raw value), and the emitted viseme weights
primaryOpen and roundedOpen lie in [0,1] for every open value, since the
shared mouth value is clamped before scaling by 0.9 and 0.4. -/
theorem C9_bounds :
    (∀ inputs : List (Option (List ℕ)),
        (∀ f, some f ∈ inputs → 2 < f.length) →
        0 ≤ runLevel inputs ∧ runLevel inputs ≤ 1) ∧
    (∀ v : ℚ, 0 ≤ primaryOpen v ∧ primaryOpen v ≤ 1 ∧
        0 ≤ roundedOpen v ∧ roundedOpen v ≤ 1) := by
  constructor
  · intro inputs _
    exact runLevel_aux inputs 0 le_rfl (by norm_num)
  · intro v
    have h0 : 0 ≤ clamp01 v := clamp01_nonneg v
    have h1 : clamp01 v ≤ 1 := clamp01_le_one v
    unfold primaryOpen roundedOpen mouthOpenValue
    refine ⟨by linarith, by linarith, by linarith, by linarith⟩

/-- C9 witness: the bounds at a concrete tick sequence and open value. -/
theorem C9_witness :
    (0 ≤ runLevel [some (List.replicate 20 100), none]
      ∧ runLevel [some (List.replicate 20 100), none] ≤ 1) ∧
    (0 ≤ primaryOpen 2 ∧ primaryOpen 2 ≤ 1
      ∧ 0 ≤ roundedOpen 2 ∧ roundedOpen 2 ≤ 1) :=
  ⟨C9_bounds.1 [some (List.replicate 20 100), none]
      (by intro f hf; simp at hf; subst hf; norm_num),
   C9_bounds.2 2⟩

/-- C10: with isSpeaking true the synthesizer takes the real-audio path
(EMA smoothing of the previous smoothed level with the supplied level at
0.4/0.6, plus the sin(t*15)*0.1 variation, clamped) exactly when the
supplied audio level is strictly positive; when the level equals 0 it takes
the simulated path instead: the sine sum at 12, 18 and 25 rad/s plus the
uniform noise term on the 0.3 baseline, clamped to [0,1], leaving the
smoothed level untouched. -/
theorem C10_branch_selection (sine : ℚ → ℚ) (rand time audioLevel : ℚ)
    (st : LipSyncState) :
    (0 < audioLevel →
      lipSyncStep sine rand time true audioLevel st
        = { value := clamp01 (st.smoothedLevel * 0.4 + audioLevel * 0.6
              + sine (time * 15) * 0.1),
            smoothedLevel := st.smoothedLevel * 0.4 + audioLevel * 0.6 }) ∧
    (audioLevel = 0 →
      lipSyncStep sine rand time true audioLevel st
        = { value := clamp01 (0.3 + sine (time * 12) * 0.3
              + sine (time * 18) * 0.2 + sine (time * 25) * 0.15
              + rand * 0.1),
            smoothedLevel := st.smoothedLevel }) := by
  constructor
  · intro h
    simp [lipSyncStep, h]
  · intro h
    subst h
    simp [lipSyncStep]

/-- C10 witness: both branch conclusions at concrete inputs. -/
theorem C10_witness :
    lipSyncStep (fun _ => 0) (1/4) 0 true (1/2) ⟨0, 1⟩
        = { value := 7/10, smoothedLevel := 7/10 } ∧
    lipSyncStep (fun _ => 0) (1/4) 0 true 0 ⟨0, 1⟩
        = { value := 13/40, smoothedLevel := 1 } := by
  constructor
  · have h := (C10_branch_selection (fun _ => 0) (1/4) 0 (1/2) ⟨0, 1⟩).1
      (by norm_num)
    rw [h]
    norm_num [clamp01]
  · have h := (C10_branch_selection (fun _ => 0) (1/4) 0 0 ⟨0, 1⟩).2 rfl
    rw [h]
    norm_num [clamp01]

end AnimeWaifu
